import Mathlib

/-!
Shallow embedding of the Polymarket copy-trading bot's execution pipeline
(`TradeOrderBuilder.copyTrade`, `createSimulateAndPost`, `describeOrderFailure`)
and of the RPC endpoint fallback (`getRpcCandidates`, `getWorkingProvider` in
`src/security/allowance.ts`), together with theorems settling the frozen claims.

Quantities (token amounts, prices, balances) are modelled as rationals.
Fallible remote collaborators (order creation, balance check, posting,
approvals) are modelled as `Except String`-valued oracle inputs: `.error m`
stands for a thrown exception with message `m`.  JS truthiness of optional
string fields (`orderID`, `status`, `makingAmount`, `takingAmount`) is
modelled explicitly: an absent or empty string is falsy.
-/

namespace PolyBot

inductive Side where
  | BUY
  | SELL
deriving DecidableEq, Repr

inductive OrdType where
  | FOK
  | FAK
deriving DecidableEq, Repr

/-- `UserMarketOrder` as constructed by `copyTrade`. -/
structure MarketOrder where
  tokenID : String
  side : Side
  amount : Rat
  orderType : OrdType
deriving DecidableEq, Repr

/-- The `trade` field of `CopyTradeOptions`: an observed external trade. -/
structure ObservedTrade where
  conditionId : String
  asset : String
  side : String
  price : Rat
  size : Rat
deriving DecidableEq, Repr

/-- Venue response of `postOrder`.  `makingAmount` / `takingAmount` model the
numeric value of the response string when it is present and non-empty
(`none` covers both an absent field and an empty string, which are both
falsy in the source). -/
structure PostResponse where
  orderID : Option String := none
  status : Option String := none
  makingAmount : Option Rat := none
  takingAmount : Option Rat := none
  transactionsHashes : Option (List String) := none
deriving DecidableEq, Repr

structure CopyTradeResult where
  success : Bool
  orderID : Option String := none
  error : Option String := none
  transactionHashes : Option (List String) := none
deriving DecidableEq, Repr

/-- Result of `validateBuyOrderBalance` (an external collaborator of
`copyTrade`; only its result shape matters here). -/
structure BalanceCheck where
  valid : Bool
  available : Rat
  required : Rat
deriving DecidableEq, Repr

/-- Modelled from the spec: the holdings ledger of `src/utils/holdings.ts`,
which is not among the sources (only its callers are).  Spec section 4.1:
`get(marketId, tokenId) -> quantity`, `add` increments the entry, `remove`
clamps at 0 (never negative). -/
def Ledger : Type := String → String → Rat

/-- Modelled from the spec: `getHoldings` reads the entry for a key. -/
def getHoldings (L : Ledger) (marketId tokenId : String) : Rat :=
  L marketId tokenId

/-- Modelled from the spec: `addHoldings` increments the entry for a key. -/
def addHoldings (L : Ledger) (marketId tokenId : String) (q : Rat) : Ledger :=
  fun m t => if m = marketId ∧ t = tokenId then L m t + q else L m t

/-- Modelled from the spec: `removeHoldings` decrements the entry for a key,
clamping at 0. -/
def removeHoldings (L : Ledger) (marketId tokenId : String) (q : Rat) : Ledger :=
  fun m t => if m = marketId ∧ t = tokenId then max (L m t - q) 0 else L m t

/-- `describeOrderFailure` from the source: classifies a venue status into a
human-readable cause.  `none` models a JS `undefined` status
(`String(undefined) = "undefined"`, and `undefined || "unknown" = "unknown"`). -/
def describeOrderFailure (status : Option String) : String :=
  let s := match status with
    | none => "undefined"
    | some v => v
  if s = "403" then
    "Incorrect region — Polymarket blocks trading from this server's location. " ++
      "Use a server in an allowed region or route traffic through a VPN/proxy."
  else if s = "401" then
    "Authentication failed — check your API credentials."
  else if s = "429" then
    "Rate limited — too many requests, slow down."
  else
    "Order failed (status: " ++
      (match status with
        | none => "unknown"
        | some v => if v = "" then "unknown" else v) ++ ")"

/-- JS truthiness of an optional string: absent or empty is falsy. -/
def optStrFalsy : Option String → Bool
  | none => true
  | some s => s == ""

/-- Status strings the source accepts as a successful fill. -/
def goodStatusStr (s : String) : Bool :=
  s == "FILLED" || s == "PARTIALLY_FILLED" || s == "MATCHED"

/-- The status part of the `sellFailed` / `buyFailed` condition: a truthy
status that is not one of the accepted fill statuses. -/
def statusBad : Option String → Bool
  | none => false
  | some s => !(s == "") && !(goodStatusStr s)

/-- The `sellFailed` / `buyFailed` condition of the source (they are
identical): the order failed when the response is missing, its `orderID` is
falsy, or its status is truthy and not one of the accepted fill statuses. -/
def orderFailed : Option PostResponse → Bool
  | none => true
  | some r => optStrFalsy r.orderID || statusBad r.status

/-- `String.prototype.toUpperCase` restricted to what the source compares
against (ASCII), modelled structurally so it evaluates by `decide`. -/
def jsToUpper (s : String) : String :=
  String.mk (s.data.map Char.toUpper)

/-- The status value handed to `describeOrderFailure` (`response?.status`). -/
def respStatus : Option PostResponse → Option String
  | none => none
  | some r => r.status

/-- Oracle inputs standing for the fallible collaborators one `copyTrade`
call interacts with.  `build` is the outcome of `tradeToMarketOrder`,
`post` the outcome of `createSimulateAndPost` (creation + posting),
`approve` the outcome of `approveTokensAfterBuy`.  `updateAllowance` is the
outcome of the `updateBalanceAllowance` call; the source wraps it in a
try/catch used only for logging, so it never influences the result. -/
structure Collab where
  build : Except String MarketOrder
  updateAllowance : Except String Unit
  displayBalance : Except String Unit
  balanceCheck : Except String BalanceCheck
  post : Except String (Option PostResponse)
  approve : Except String Unit

structure CopyTradeOptions where
  trade : ObservedTrade
  orderType : OrdType := OrdType.FAK
deriving DecidableEq, Repr

/-- Observable outcome of one `copyTrade` call: the returned result, the
ledger state afterwards, and the market order submitted to
`createSimulateAndPost` (`none` when no order was submitted). -/
structure Outcome where
  result : CopyTradeResult
  ledger : Ledger
  posted : Option MarketOrder

/-- `TradeOrderBuilder.copyTrade`, translated from the source.  The outer
try/catch of the source maps any thrown collaborator error `m` to
`{ success := false, error := m }`; every exception-throwing step occurs
before any ledger mutation, so the catch path returns the entry ledger. -/
def copyTrade (opts : CopyTradeOptions) (L : Ledger) (w : Collab) : Outcome :=
  let trade := opts.trade
  let marketId := trade.conditionId
  let tokenId := trade.asset
  if jsToUpper trade.side = "SELL" then
    let holdingsAmount := getHoldings L marketId tokenId
    if holdingsAmount ≤ 0 then
      ⟨⟨false, none, some "No holdings available to sell", none⟩, L, none⟩
    else
      let sellAmount := holdingsAmount
      let marketOrder : MarketOrder := ⟨tokenId, Side.SELL, sellAmount, opts.orderType⟩
      match w.post with
      | .error e => ⟨⟨false, none, some e, none⟩, L, some marketOrder⟩
      | .ok resp =>
        if orderFailed resp then
          ⟨⟨false, none, some (describeOrderFailure (respStatus resp)), none⟩, L,
            some marketOrder⟩
        else
          match resp with
          | none =>
            -- unreachable: `orderFailed none = true`
            ⟨⟨false, none, some (describeOrderFailure none), none⟩, L, some marketOrder⟩
          | some r =>
            let tokensSold := match r.makingAmount with
              | some q => q
              | none => sellAmount
            let L' := if tokensSold > 0 then
                removeHoldings L marketId tokenId tokensSold
              else
                -- "No tokens were sold - not removing from holdings" warning
                L
            ⟨⟨true, r.orderID, none, r.transactionsHashes⟩, L', some marketOrder⟩
  else
    match w.build with
    | .error e => ⟨⟨false, none, some e, none⟩, L, none⟩
    | .ok builtOrder =>
      -- `updateBalanceAllowance` is inside its own try/catch, result only logged
      match w.displayBalance with
      | .error e => ⟨⟨false, none, some e, none⟩, L, none⟩
      | .ok _ =>
        match w.balanceCheck with
        | .error e => ⟨⟨false, none, some e, none⟩, L, none⟩
        | .ok bc =>
          if bc.valid = false ∧ bc.available ≤ 0 then
            ⟨⟨false, none,
                some ("Insufficient USDC balance. Available: " ++ toString bc.available),
                none⟩, L, none⟩
          else
            let marketOrder :=
              if bc.valid then builtOrder else { builtOrder with amount := bc.available }
            match w.post with
            | .error e => ⟨⟨false, none, some e, none⟩, L, some marketOrder⟩
            | .ok resp =>
              if orderFailed resp then
                ⟨⟨false, none, some (describeOrderFailure (respStatus resp)), none⟩, L,
                  some marketOrder⟩
              else
                match resp with
                | none =>
                  -- unreachable: `orderFailed none = true`
                  ⟨⟨false, none, some (describeOrderFailure none), none⟩, L,
                    some marketOrder⟩
                | some r =>
                  let tokensReceived := match r.takingAmount with
                    | some q => q
                    | none => 0
                  let L' :=
                    if tokensReceived > 0 then
                      addHoldings L marketId tokenId tokensReceived
                    else
                      let estimatedTokens :=
                        marketOrder.amount /
                          (if trade.price = 0 then 1 else trade.price)
                      if estimatedTokens > 0 then
                        addHoldings L marketId tokenId estimatedTokens
                      else
                        L
                  -- `approveTokensAfterBuy` is inside try/catch, failures only logged
                  ⟨⟨true, r.orderID, none, r.transactionsHashes⟩, L', some marketOrder⟩

/-- `s` contains `pat` as a substring (JS `String.prototype.includes`). -/
def containsSubstr (s pat : String) : Bool :=
  (s.splitOn pat).length > 1

/-- The message rewrite of the `postOrder` catch in `createSimulateAndPost`:
geoblock-related errors are rethrown with a fixed explanation. -/
def geoTransform (msg : String) : String :=
  if containsSubstr msg "Trading restricted" || containsSubstr msg "geoblock" then
    "Order rejected: trading is restricted in your region. " ++
      "Use a VPN or check https://docs.polymarket.com/developers/CLOB/geoblock"
  else msg

/-- Oracle inputs for one `createSimulateAndPost` call: the outcome of
`createMarketOrder`, of the simulation try-block (wallet construction plus
`simulateTx`; `.ok b` is the boolean returned by `simulateTx`, `.error`
a thrown exception), and of `postOrder`. -/
structure SimStep where
  createRes : Except String Unit
  simRes : Except String Bool
  postRes : Except String (Option PostResponse)

/-- Observables of one `createSimulateAndPost` call: whether the simulation
step ran, whether `postOrder` was invoked, and the returned/thrown value. -/
structure StepOut where
  simRan : Bool
  postCalled : Bool
  result : Except String (Option PostResponse)

def isOkB : Except String Unit → Bool
  | .ok _ => true
  | .error _ => false

/-- One `createSimulateAndPost` call, translated from the source.  `done` is
the instance's `simulateTxDone` flag on entry; the first component of the
result is the flag on exit.  If `createMarketOrder` throws, nothing else
runs.  Otherwise, when the flag is unset it is set and the simulation
try-block runs; its outcome (`simRes`) is swallowed by the catch, so
`postOrder` is invoked regardless. -/
def stepCSP (done : Bool) (b : SimStep) : Bool × StepOut :=
  match b.createRes with
  | .error e => (done, ⟨false, false, .error e⟩)
  | .ok _ =>
    let simRan := !done
    let res : Except String (Option PostResponse) :=
      match b.postRes with
      | .ok r => .ok r
      | .error m => .error (geoTransform m)
    (true, ⟨simRan, true, res⟩)

/-- A sequence of `createSimulateAndPost` calls on one `TradeOrderBuilder`
instance, threading the `simulateTxDone` flag (initially `false` at
construction). -/
def runTrace (done : Bool) : List SimStep → List StepOut
  | [] => []
  | b :: bs => (stepCSP done b).2 :: runTrace (stepCSP done b).1 bs

/-! ## RPC endpoint fallback (`src/security/allowance.ts`) -/

/-- First-occurrence deduplication, as JS `[...new Set(xs)]`. -/
def jsSetDedupAux (seen : List String) : List String → List String
  | [] => []
  | x :: xs =>
    if x ∈ seen then jsSetDedupAux seen xs
    else x :: jsSetDedupAux (x :: seen) xs

def jsSetDedup (l : List String) : List String := jsSetDedupAux [] l

def polygonDefaultRpcs : List String :=
  ["https://polygon-rpc.com",
   "https://rpc.ankr.com/polygon",
   "https://polygon.llamarpc.com",
   "https://rpc-mainnet.matic.quiknode.pro"]

/-- `getRpcCandidates` from the source: operator-supplied `RPC_URL` first,
then the Alchemy URL when `RPC_TOKEN` is set, then the public defaults,
deduplicated; an unsupported chain id throws. -/
def getRpcCandidates (chainId : Nat) (rpcUrl rpcToken : Option String) :
    Except String (List String) :=
  let base := match rpcUrl with
    | some u => [u]
    | none => []
  if chainId = 137 then
    let withTok := base ++ (match rpcToken with
      | some t => ["https://polygon-mainnet.g.alchemy.com/v2/" ++ t]
      | none => [])
    .ok (jsSetDedup (withTok ++ polygonDefaultRpcs))
  else if chainId = 80002 then
    let withTok := base ++ (match rpcToken with
      | some t => ["https://polygon-amoy.g.alchemy.com/v2/" ++ t]
      | none => [])
    .ok (jsSetDedup (withTok ++ ["https://rpc-amoy.polygon.technology"]))
  else
    .error ("Unsupported chain ID: " ++ toString chainId ++
      ". Supported: 137 (Polygon), 80002 (Amoy)")

/-- The per-candidate probe timeout of `getWorkingProvider`, in
milliseconds (the `setTimeout(..., 7000)` raced against
`provider.getNetwork()`). -/
def rpcProbeTimeoutMs : Nat := 7000

/-- The error message thrown when every candidate fails, listing every
attempt in order. -/
def attemptsMsg (chainId : Nat) (errors : List String) : String :=
  "Could not connect to any RPC endpoint for chainId=" ++ toString chainId ++
    ". Set RPC_URL in .env. Attempts:\n- " ++ String.intercalate "\n- " errors

/-- The candidate loop of `getWorkingProvider`.  `f` is the probe oracle:
`.ok ()` means the raced `getNetwork()` succeeded, `.error e` any failure
including the 7-second timeout (`e = "timeout"`).  `errs` accumulates the
attempt descriptions in reverse. -/
def tryLoop (f : String → Except String Unit) (chainId : Nat) :
    List String → List String → Except String String
  | errs, [] => .error (attemptsMsg chainId errs.reverse)
  | errs, c :: rest =>
    match f c with
    | .ok _ => .ok c
    | .error e => tryLoop f chainId ((c ++ " -> " ++ e) :: errs) rest

/-- `getWorkingProvider`, returning the RPC url it connected to. -/
def getWorkingProvider (chainId : Nat) (rpcUrl rpcToken : Option String)
    (f : String → Except String Unit) : Except String String :=
  match getRpcCandidates chainId rpcUrl rpcToken with
  | .error e => .error e
  | .ok cands => tryLoop f chainId [] cands

/-- The first candidate the probe oracle accepts. -/
def firstOk (f : String → Except String Unit) : List String → Option String
  | [] => none
  | c :: rest =>
    match f c with
    | .ok _ => some c
    | .error _ => firstOk f rest

/-- The error message the probe oracle produces for a candidate (asked only
of failing candidates). -/
def errOf (f : String → Except String Unit) (c : String) : String :=
  match f c with
  | .ok _ => ""
  | .error e => e

/-! ## Concrete inputs used by witnesses and counterexamples -/

def skipTrade : ObservedTrade := ⟨"m-skip", "t-skip", "sell", 62/100, 50⟩
def skipOpts : CopyTradeOptions := ⟨skipTrade, OrdType.FAK⟩
def skipLedger : Ledger := fun _ _ => 0
def skipCollab : Collab :=
  ⟨.error "not reached", .ok (), .ok (), .error "not reached", .error "venue down", .ok ()⟩

def cexTrade : ObservedTrade := ⟨"m-cex", "t-cex", "SELL", 62/100, 50⟩
def cexOpts : CopyTradeOptions := ⟨cexTrade, OrdType.FAK⟩
def cexLedger : Ledger := fun _ _ => 5
def cexResp : PostResponse := { orderID := some "ord-1" }
def cexCollab : Collab :=
  ⟨.error "not reached", .ok (), .ok (), .error "not reached", .ok (some cexResp), .ok ()⟩

def sellTrade : ObservedTrade := ⟨"m-sell", "t-sell", "SELL", 62/100, 8⟩
def sellOpts : CopyTradeOptions := ⟨sellTrade, OrdType.FAK⟩
def sellLedger : Ledger := fun _ _ => 403/50
def sellResp : PostResponse := { orderID := some "ord-2", status := some "FILLED" }
def sellCollab : Collab :=
  ⟨.error "not reached", .ok (), .ok (), .error "not reached", .ok (some sellResp), .ok ()⟩

def zeroResp : PostResponse :=
  { orderID := some "ord-3", status := some "MATCHED", makingAmount := some 0 }
def zeroCollab : Collab :=
  ⟨.error "not reached", .ok (), .ok (), .error "not reached", .ok (some zeroResp), .ok ()⟩

def buyTrade : ObservedTrade := ⟨"m-buy", "t-buy", "BUY", 62/100, 50⟩
def buyOpts : CopyTradeOptions := ⟨buyTrade, OrdType.FAK⟩
def buyLedger : Ledger := fun _ _ => 0
def buyOrder : MarketOrder := ⟨"t-buy", Side.BUY, 5, OrdType.FAK⟩
def buyBalance : BalanceCheck := ⟨true, 100, 5⟩
def buyResp : PostResponse := { orderID := some "ord-4", status := some "MATCHED" }
def buyCollab : Collab :=
  ⟨.ok buyOrder, .ok (), .ok (), .ok buyBalance, .ok (some buyResp), .ok ()⟩

def lowBalance : BalanceCheck := ⟨false, 2, 5⟩
def lowBalCollab : Collab :=
  ⟨.ok buyOrder, .ok (), .ok (), .ok lowBalance, .ok (some buyResp), .ok ()⟩

def demoStep1 : SimStep := ⟨.ok (), .error "simulate endpoint down", .ok none⟩
def demoStep2 : SimStep := ⟨.ok (), .ok true, .error "Trading restricted"⟩
def demoSteps : List SimStep := [demoStep1, demoStep2]

def probeDemo : String → Except String Unit := fun s =>
  if s = "https://rpc.ankr.com/polygon" then .ok () else .error "timeout"

def buyTakeResp : PostResponse :=
  { orderID := some "ord-5", status := some "FILLED", takingAmount := some 8 }
def approveFailCollab : Collab :=
  ⟨.ok buyOrder, .ok (), .ok (), .ok buyBalance, .ok (some buyTakeResp),
    .error "Insufficient POL (MATIC) for gas fees"⟩

/-! ## Theorems -/

theorem optStrFalsy_false_iff (o : Option String) :
    optStrFalsy o = false ↔ ∃ s, o = some s ∧ s ≠ "" := by
  cases o <;> simp [optStrFalsy]

theorem statusBad_false_iff (st : Option String) :
    statusBad st = false ↔
      st = none ∨ st = some "" ∨ st = some "FILLED" ∨
        st = some "PARTIALLY_FILLED" ∨ st = some "MATCHED" := by
  cases st with
  | none => simp [statusBad]
  | some s =>
    simp [statusBad, goodStatusStr]
    tauto

/-- The fill-failure test of the source, characterised: it passes exactly
when the response is present, carries a non-empty order id, and its status
is absent, empty, or one of FILLED / PARTIALLY_FILLED / MATCHED. -/
theorem orderFailed_false_iff (resp : Option PostResponse) :
    orderFailed resp = false ↔
      ∃ r, resp = some r ∧ (∃ s, r.orderID = some s ∧ s ≠ "") ∧
        (r.status = none ∨ r.status = some "" ∨ r.status = some "FILLED" ∨
         r.status = some "PARTIALLY_FILLED" ∨ r.status = some "MATCHED") := by
  cases resp with
  | none => simp [orderFailed]
  | some r =>
    simp only [orderFailed, Bool.or_eq_false_iff, optStrFalsy_false_iff,
      statusBad_false_iff, Option.some.injEq]
    constructor
    · rintro ⟨h1, h2⟩
      exact ⟨r, rfl, h1, h2⟩
    · rintro ⟨r1, hr, h1, h2⟩
      cases hr
      exact ⟨h1, h2⟩

/-- Full characterisation of a SELL `copyTrade` run that reaches order
placement and whose post call returns a passing response. -/
theorem copyTrade_sell_fill (opts : CopyTradeOptions) (L : Ledger) (w : Collab)
    (r : PostResponse)
    (hside : jsToUpper opts.trade.side = "SELL")
    (hpos : 0 < getHoldings L opts.trade.conditionId opts.trade.asset)
    (hpost : w.post = .ok (some r))
    (hok : orderFailed (some r) = false) :
    copyTrade opts L w =
      ⟨⟨true, r.orderID, none, r.transactionsHashes⟩,
       (let ts : Rat := match r.makingAmount with
          | some q => q
          | none => getHoldings L opts.trade.conditionId opts.trade.asset
        if ts > 0 then
          removeHoldings L opts.trade.conditionId opts.trade.asset ts
        else L),
       some ⟨opts.trade.asset, Side.SELL,
         getHoldings L opts.trade.conditionId opts.trade.asset, opts.orderType⟩⟩ := by
  have hns : ¬ getHoldings L opts.trade.conditionId opts.trade.asset ≤ 0 :=
    not_le.mpr hpos
  unfold copyTrade
  simp [hside, hns, hpost, hok]

/-- Full characterisation of a BUY `copyTrade` run that passes the balance
check gate and whose post call returns a passing response. -/
theorem copyTrade_buy_fill (opts : CopyTradeOptions) (L : Ledger) (w : Collab)
    (mo : MarketOrder) (bc : BalanceCheck) (r : PostResponse)
    (hside : ¬ jsToUpper opts.trade.side = "SELL")
    (hbuild : w.build = .ok mo)
    (hdisp : w.displayBalance = .ok ())
    (hbal : w.balanceCheck = .ok bc)
    (hpr : bc.valid = true ∨ 0 < bc.available)
    (hpost : w.post = .ok (some r))
    (hok : orderFailed (some r) = false) :
    copyTrade opts L w =
      ⟨⟨true, r.orderID, none, r.transactionsHashes⟩,
       (let mo' := if bc.valid then mo else { mo with amount := bc.available }
        let tokensReceived : Rat := match r.takingAmount with
          | some q => q
          | none => 0
        if tokensReceived > 0 then
          addHoldings L opts.trade.conditionId opts.trade.asset tokensReceived
        else
          let est := mo'.amount / (if opts.trade.price = 0 then 1 else opts.trade.price)
          if est > 0 then
            addHoldings L opts.trade.conditionId opts.trade.asset est
          else L),
       some (if bc.valid then mo else { mo with amount := bc.available })⟩ := by
  have hg : ¬ (bc.valid = false ∧ bc.available ≤ 0) := by
    rcases hpr with h | h
    · rintro ⟨h1, _⟩
      rw [h] at h1
      exact Bool.noConfusion h1
    · rintro ⟨_, h2⟩
      exact absurd h (not_lt.mpr h2)
  unfold copyTrade
  simp [hside, hbuild, hdisp, hbal, hg, hpost, hok]

/-- C1: for a SELL-side observed trade whose ledger entry is non-positive,
`copyTrade` submits no order, leaves the ledger unchanged, and returns the
failure result with the error "No holdings available to sell". -/
theorem no_short_selling (opts : CopyTradeOptions) (L : Ledger) (w : Collab)
    (hside : jsToUpper opts.trade.side = "SELL")
    (hz : getHoldings L opts.trade.conditionId opts.trade.asset ≤ 0) :
    copyTrade opts L w =
      ⟨⟨false, none, some "No holdings available to sell", none⟩, L, none⟩ := by
  unfold copyTrade
  simp [hside, hz]

theorem no_short_selling_witness :
    (jsToUpper "sell" = "SELL" ∧ getHoldings skipLedger "m-skip" "t-skip" ≤ 0) ∧
    copyTrade skipOpts skipLedger skipCollab =
      ⟨⟨false, none, some "No holdings available to sell", none⟩, skipLedger, none⟩ :=
  ⟨⟨by decide, by norm_num [getHoldings, skipLedger]⟩,
    no_short_selling skipOpts skipLedger skipCollab (by decide)
      (by norm_num [getHoldings, skipLedger, skipOpts, skipTrade])⟩

/-- C2 counterexample: the code reports success for a venue response whose
`orderID` is non-empty but whose `status` is absent — a status outside
{FILLED, PARTIALLY_FILLED, MATCHED} — so "successful iff ... a status in
{FILLED, PARTIALLY_FILLED, MATCHED}" fails as stated. -/
theorem fill_success_criterion_cex :
    (copyTrade cexOpts cexLedger cexCollab).result.success = true ∧
    cexCollab.post = .ok (some cexResp) ∧
    cexResp.status ≠ some "FILLED" ∧
    cexResp.status ≠ some "PARTIALLY_FILLED" ∧
    cexResp.status ≠ some "MATCHED" := by
  exact ⟨by decide, rfl, by simp [cexResp], by simp [cexResp], by simp [cexResp]⟩

/-- C2 (amended): for every submitted order (BUY or SELL) whose post call
returned a response, the result is successful iff the response is present
with a non-empty orderID and a status that is absent, empty, or in
{FILLED, PARTIALLY_FILLED, MATCHED}; otherwise the result is a structured
failure carrying the classified error message. -/
theorem fill_success_criterion (opts : CopyTradeOptions) (L : Ledger) (w : Collab)
    (resp : Option PostResponse)
    (hpost : w.post = .ok resp)
    (hsub : (copyTrade opts L w).posted.isSome = true) :
    ((copyTrade opts L w).result.success = true ↔
       ∃ r, resp = some r ∧ (∃ s, r.orderID = some s ∧ s ≠ "") ∧
         (r.status = none ∨ r.status = some "" ∨ r.status = some "FILLED" ∨
          r.status = some "PARTIALLY_FILLED" ∨ r.status = some "MATCHED")) ∧
    ((copyTrade opts L w).result.success = false →
       (copyTrade opts L w).result.error =
         some (describeOrderFailure (respStatus resp))) := by
  rw [← orderFailed_false_iff resp]
  by_cases hside : jsToUpper opts.trade.side = "SELL"
  · by_cases hz : getHoldings L opts.trade.conditionId opts.trade.asset ≤ 0
    · exfalso
      rw [no_short_selling opts L w hside hz] at hsub
      simp at hsub
    · by_cases hof : orderFailed resp = true
      · constructor
        · unfold copyTrade
          simp [hside, hz, hpost, hof]
        · intro _
          unfold copyTrade
          simp [hside, hz, hpost, hof]
      · have hof' : orderFailed resp = false := by
          cases h : orderFailed resp
          · rfl
          · exact absurd h hof
        rcases (orderFailed_false_iff resp).mp hof' with ⟨r, hr, _⟩
        subst hr
        constructor
        · unfold copyTrade
          simp [hside, hz, hpost, hof']
        · intro hfail
          exfalso
          unfold copyTrade at hfail
          simp [hside, hz, hpost, hof'] at hfail
  · rcases hb : w.build with e | builtOrder
    · exfalso
      unfold copyTrade at hsub
      simp [hside, hb] at hsub
    · rcases hd : w.displayBalance with e | u
      · exfalso
        unfold copyTrade at hsub
        simp [hside, hb, hd] at hsub
      · rcases hbal : w.balanceCheck with e | bc
        · exfalso
          unfold copyTrade at hsub
          simp [hside, hb, hd, hbal] at hsub
        · by_cases hg : bc.valid = false ∧ bc.available ≤ 0
          · exfalso
            unfold copyTrade at hsub
            simp [hside, hb, hd, hbal, hg] at hsub
          · by_cases hof : orderFailed resp = true
            · constructor
              · unfold copyTrade
                simp [hside, hb, hd, hbal, hg, hpost, hof]
              · intro _
                unfold copyTrade
                simp [hside, hb, hd, hbal, hg, hpost, hof]
            · have hof' : orderFailed resp = false := by
                cases h : orderFailed resp
                · rfl
                · exact absurd h hof
              rcases (orderFailed_false_iff resp).mp hof' with ⟨r, hr, _⟩
              subst hr
              constructor
              · unfold copyTrade
                simp [hside, hb, hd, hbal, hg, hpost, hof']
              · intro hfail
                exfalso
                unfold copyTrade at hfail
                simp [hside, hb, hd, hbal, hg, hpost, hof'] at hfail

theorem fill_success_criterion_witness :
    (cexCollab.post = .ok (some cexResp) ∧
      (copyTrade cexOpts cexLedger cexCollab).posted.isSome = true) ∧
    ((copyTrade cexOpts cexLedger cexCollab).result.success = true ↔
       ∃ r, some cexResp = some r ∧ (∃ s, r.orderID = some s ∧ s ≠ "") ∧
         (r.status = none ∨ r.status = some "" ∨ r.status = some "FILLED" ∨
          r.status = some "PARTIALLY_FILLED" ∨ r.status = some "MATCHED")) :=
  ⟨⟨rfl, by decide⟩,
    (fill_success_criterion cexOpts cexLedger cexCollab (some cexResp) rfl (by decide)).1⟩

/-- C3: a SELL that reaches order placement offers exactly the full current
ledger quantity; on a successful fill the removed quantity equals the venue
makingAmount when present (and positive), else exactly the offered sell
amount, in which case the entry goes to 0. -/
theorem sell_all_and_exact_removal (opts : CopyTradeOptions) (L : Ledger) (w : Collab)
    (r : PostResponse)
    (hside : jsToUpper opts.trade.side = "SELL")
    (hpos : 0 < getHoldings L opts.trade.conditionId opts.trade.asset)
    (hpost : w.post = .ok (some r))
    (hok : orderFailed (some r) = false) :
    ((copyTrade opts L w).posted =
        some ⟨opts.trade.asset, Side.SELL,
          getHoldings L opts.trade.conditionId opts.trade.asset, opts.orderType⟩) ∧
    (∀ q, r.makingAmount = some q → 0 < q →
        (copyTrade opts L w).ledger =
          removeHoldings L opts.trade.conditionId opts.trade.asset q) ∧
    (r.makingAmount = none →
        (copyTrade opts L w).ledger =
          removeHoldings L opts.trade.conditionId opts.trade.asset
            (getHoldings L opts.trade.conditionId opts.trade.asset) ∧
        (copyTrade opts L w).ledger opts.trade.conditionId opts.trade.asset = 0) := by
  rw [copyTrade_sell_fill opts L w r hside hpos hpost hok]
  refine ⟨rfl, ?_, ?_⟩
  · intro q hq hqpos
    simp [hq, hqpos]
  · intro hq
    have hpos' : 0 < L opts.trade.conditionId opts.trade.asset := hpos
    constructor
    · simp [hq, hpos]
    · simp [hq, getHoldings, removeHoldings, hpos', sub_self]

theorem sell_all_witness :
    (jsToUpper "SELL" = "SELL" ∧ (0:Rat) < getHoldings sellLedger "m-sell" "t-sell" ∧
      orderFailed (some sellResp) = false ∧ sellResp.makingAmount = none) ∧
    ((copyTrade sellOpts sellLedger sellCollab).posted =
        some ⟨"t-sell", Side.SELL, getHoldings sellLedger "m-sell" "t-sell",
          OrdType.FAK⟩ ∧
     (copyTrade sellOpts sellLedger sellCollab).ledger "m-sell" "t-sell" = 0) := by
  have h := sell_all_and_exact_removal sellOpts sellLedger sellCollab sellResp
    (by decide) (by norm_num [getHoldings, sellLedger]) rfl (by decide)
  exact ⟨⟨by decide, by norm_num [getHoldings, sellLedger], by decide, rfl⟩,
    h.1, (h.2.2 rfl).2⟩

/-- C4: on a successful BUY fill, the ledger gains the venue takingAmount
when present and positive; when takingAmount is absent, it gains the
estimate `order.amount / trade.price` (for the amount actually submitted
and a positive price). -/
theorem buy_fill_accounting (opts : CopyTradeOptions) (L : Ledger) (w : Collab)
    (mo : MarketOrder) (bc : BalanceCheck) (r : PostResponse)
    (hside : ¬ jsToUpper opts.trade.side = "SELL")
    (hbuild : w.build = .ok mo)
    (hdisp : w.displayBalance = .ok ())
    (hbal : w.balanceCheck = .ok bc)
    (hpr : bc.valid = true ∨ 0 < bc.available)
    (hpost : w.post = .ok (some r))
    (hok : orderFailed (some r) = false)
    (hprice : 0 < opts.trade.price) :
    (∀ q, r.takingAmount = some q → 0 < q →
        (copyTrade opts L w).ledger =
          addHoldings L opts.trade.conditionId opts.trade.asset q) ∧
    (r.takingAmount = none →
      0 < (if bc.valid then mo else { mo with amount := bc.available }).amount →
        (copyTrade opts L w).ledger =
          addHoldings L opts.trade.conditionId opts.trade.asset
            ((if bc.valid then mo else { mo with amount := bc.available }).amount /
              opts.trade.price)) := by
  rw [copyTrade_buy_fill opts L w mo bc r hside hbuild hdisp hbal hpr hpost hok]
  constructor
  · intro q hq hqpos
    simp [hq, hqpos]
  · intro hq ha
    have hpne : ¬ opts.trade.price = 0 := ne_of_gt hprice
    have hest :
        0 < (if bc.valid then mo else { mo with amount := bc.available }).amount /
          opts.trade.price := div_pos ha hprice
    simp [hq, hpne, hest]

theorem buy_fill_accounting_witness :
    ((¬ jsToUpper "BUY" = "SELL") ∧ buyResp.takingAmount = none ∧
      (0:Rat) < buyTrade.price ∧
      0 < (if buyBalance.valid then buyOrder
           else { buyOrder with amount := buyBalance.available }).amount) ∧
    (copyTrade buyOpts buyLedger buyCollab).ledger =
      addHoldings buyLedger "m-buy" "t-buy"
        ((if buyBalance.valid then buyOrder
          else { buyOrder with amount := buyBalance.available }).amount /
          buyTrade.price) := by
  have h := buy_fill_accounting buyOpts buyLedger buyCollab buyOrder buyBalance buyResp
    (by decide) rfl rfl rfl (Or.inl rfl) rfl (by decide) (by norm_num [buyOpts, buyTrade])
  exact ⟨⟨by decide, rfl, by norm_num [buyTrade],
      by norm_num [buyBalance, buyOrder]⟩,
    h.2 rfl (by norm_num [buyBalance, buyOrder])⟩

/-- C5: a BUY whose balance check is invalid is shrunk to the available
balance and still submitted when the available balance is positive; when
the available balance is non-positive, no order is submitted and a failure
result is returned with the ledger unchanged. -/
theorem shrink_dont_abort (opts : CopyTradeOptions) (L : Ledger) (w : Collab)
    (mo : MarketOrder) (bc : BalanceCheck)
    (hside : ¬ jsToUpper opts.trade.side = "SELL")
    (hbuild : w.build = .ok mo)
    (hdisp : w.displayBalance = .ok ())
    (hbal : w.balanceCheck = .ok bc)
    (hinv : bc.valid = false) :
    (0 < bc.available →
       (copyTrade opts L w).posted = some { mo with amount := bc.available }) ∧
    (bc.available ≤ 0 →
       copyTrade opts L w =
         ⟨⟨false, none,
            some ("Insufficient USDC balance. Available: " ++ toString bc.available),
            none⟩, L, none⟩) := by
  constructor
  · intro hav
    have hav' : ¬ bc.available ≤ 0 := not_le.mpr hav
    unfold copyTrade
    rcases hpost : w.post with m | resp
    · simp [hside, hbuild, hdisp, hbal, hav', hpost, hinv]
    · rcases resp with _ | r
      · simp [hside, hbuild, hdisp, hbal, hav', hpost, hinv, orderFailed]
      · cases hof : orderFailed (some r) <;>
          simp [hside, hbuild, hdisp, hbal, hav', hpost, hinv, hof]
  · intro hav
    unfold copyTrade
    simp [hside, hbuild, hdisp, hbal, hinv, hav]

theorem shrink_dont_abort_witness :
    (lowBalance.valid = false ∧ (0:Rat) < lowBalance.available) ∧
    (copyTrade buyOpts buyLedger lowBalCollab).posted =
      some { buyOrder with amount := lowBalance.available } := by
  have h := shrink_dont_abort buyOpts buyLedger lowBalCollab buyOrder lowBalance
    (by decide) rfl rfl rfl rfl
  exact ⟨⟨rfl, by norm_num [lowBalance]⟩, h.1 (by norm_num [lowBalance])⟩

/-- C6: a successful SELL response whose computed executed quantity is
non-positive leaves the ledger untouched, while the result still reports
success. -/
theorem nonpositive_sell_keeps_ledger (opts : CopyTradeOptions) (L : Ledger)
    (w : Collab) (r : PostResponse) (q : Rat)
    (hside : jsToUpper opts.trade.side = "SELL")
    (hpos : 0 < getHoldings L opts.trade.conditionId opts.trade.asset)
    (hpost : w.post = .ok (some r))
    (hok : orderFailed (some r) = false)
    (hmk : r.makingAmount = some q) (hq : q ≤ 0) :
    (copyTrade opts L w).ledger = L ∧
    (copyTrade opts L w).result.success = true := by
  rw [copyTrade_sell_fill opts L w r hside hpos hpost hok]
  refine ⟨?_, rfl⟩
  simp [hmk, not_lt.mpr hq]

theorem nonpositive_sell_keeps_ledger_witness :
    (jsToUpper "SELL" = "SELL" ∧ (0:Rat) < getHoldings sellLedger "m-sell" "t-sell" ∧
      orderFailed (some zeroResp) = false ∧ zeroResp.makingAmount = some 0 ∧
      (0:Rat) ≤ 0) ∧
    ((copyTrade sellOpts sellLedger zeroCollab).ledger = sellLedger ∧
     (copyTrade sellOpts sellLedger zeroCollab).result.success = true) := by
  have h := nonpositive_sell_keeps_ledger sellOpts sellLedger zeroCollab zeroResp 0
    (by decide) (by norm_num [getHoldings, sellLedger]) rfl (by decide) rfl le_rfl
  exact ⟨⟨by decide, by norm_num [getHoldings, sellLedger], by decide, rfl, le_rfl⟩, h⟩

/-- C8: for a successful BUY fill, the holdings addition is already recorded
and the result is successful regardless of the outcome of the subsequent
`approveTokensAfterBuy` step: a thrown approval failure leaves both the
recorded ledger change and the successful result intact. -/
theorem approve_failure_keeps_holdings (opts : CopyTradeOptions) (L : Ledger)
    (w : Collab) (mo : MarketOrder) (bc : BalanceCheck) (r : PostResponse)
    (e : String)
    (hside : ¬ jsToUpper opts.trade.side = "SELL")
    (hbuild : w.build = .ok mo)
    (hdisp : w.displayBalance = .ok ())
    (hbal : w.balanceCheck = .ok bc)
    (hpr : bc.valid = true ∨ 0 < bc.available)
    (hpost : w.post = .ok (some r))
    (hok : orderFailed (some r) = false) :
    ((copyTrade opts L { w with approve := .error e }).result.success = true) ∧
    ((copyTrade opts L { w with approve := .error e }).ledger =
       (copyTrade opts L w).ledger) ∧
    (∀ q, r.takingAmount = some q → 0 < q →
        (copyTrade opts L { w with approve := .error e }).ledger =
          addHoldings L opts.trade.conditionId opts.trade.asset q) := by
  have hfill := copyTrade_buy_fill opts L { w with approve := .error e } mo bc r
    hside hbuild hdisp hbal hpr hpost hok
  have hfill' := copyTrade_buy_fill opts L w mo bc r
    hside hbuild hdisp hbal hpr hpost hok
  rw [hfill, hfill']
  refine ⟨rfl, rfl, ?_⟩
  intro q hq hqpos
  simp [hq, hqpos]

theorem approve_failure_keeps_holdings_witness :
    ((¬ jsToUpper "BUY" = "SELL") ∧ buyTakeResp.takingAmount = some 8 ∧
      (0:Rat) < 8) ∧
    ((copyTrade buyOpts buyLedger approveFailCollab).result.success = true ∧
     (copyTrade buyOpts buyLedger approveFailCollab).ledger =
       addHoldings buyLedger "m-buy" "t-buy" 8) := by
  have h := approve_failure_keeps_holdings buyOpts buyLedger
    ⟨.ok buyOrder, .ok (), .ok (), .ok buyBalance, .ok (some buyTakeResp), .ok ()⟩
    buyOrder buyBalance buyTakeResp "Insufficient POL (MATIC) for gas fees"
    (by decide) rfl rfl rfl (Or.inl rfl) rfl (by decide)
  exact ⟨⟨by decide, rfl, by norm_num⟩, h.1, h.2.2 8 rfl (by norm_num)⟩

/-- C10: `copyTrade` always returns a structured result: every run ends in
either a successful result (with no error message) or a failure result
carrying an error message — collaborator exceptions included — and never
escapes as an exception. -/
theorem copyTrade_total_result (opts : CopyTradeOptions) (L : Ledger) (w : Collab) :
    ((copyTrade opts L w).result.success = true ∧
      (copyTrade opts L w).result.error = none) ∨
    ((copyTrade opts L w).result.success = false ∧
      ∃ m, (copyTrade opts L w).result.error = some m) := by
  unfold copyTrade
  by_cases hside : jsToUpper opts.trade.side = "SELL"
  · by_cases hz : getHoldings L opts.trade.conditionId opts.trade.asset ≤ 0
    · simp [hside, hz]
    · rcases hpost : w.post with m | resp
      · simp [hside, hz, hpost]
      · rcases resp with _ | r
        · simp [hside, hz, hpost, orderFailed]
        · cases hof : orderFailed (some r) <;>
            simp [hside, hz, hpost, hof]
  · rcases hbuild : w.build with e | mo
    · simp [hside, hbuild]
    · rcases hdisp : w.displayBalance with e | u
      · simp [hside, hbuild, hdisp]
      · rcases hbal : w.balanceCheck with e | bc
        · simp [hside, hbuild, hdisp, hbal]
        · by_cases hg : bc.valid = false ∧ bc.available ≤ 0
          · simp [hside, hbuild, hdisp, hbal, hg]
          · rcases hpost : w.post with m | resp
            · simp [hside, hbuild, hdisp, hbal, hg, hpost]
            · rcases resp with _ | r
              · simp [hside, hbuild, hdisp, hbal, hg, hpost, orderFailed]
              · cases hof : orderFailed (some r) <;>
                  simp [hside, hbuild, hdisp, hbal, hg, hpost, hof]

/-! ## Simulation trace lemmas (C7) -/

theorem stepCSP_true_fst (b : SimStep) : (stepCSP true b).1 = true := by
  rcases hc : b.createRes with e | u <;> simp [stepCSP, hc]

theorem stepCSP_true_simRan (b : SimStep) : (stepCSP true b).2.simRan = false := by
  rcases hc : b.createRes with e | u <;> simp [stepCSP, hc]

theorem runTrace_true_no_sim (bs : List SimStep) :
    ∀ o ∈ runTrace true bs, o.simRan = false := by
  induction bs with
  | nil => simp [runTrace]
  | cons b bs ih =>
    intro o ho
    have hrt : runTrace true (b :: bs) =
        (stepCSP true b).2 :: runTrace (stepCSP true b).1 bs := rfl
    rw [hrt] at ho
    rcases List.mem_cons.mp ho with h | h
    · subst h
      exact stepCSP_true_simRan b
    · rw [stepCSP_true_fst b] at h
      exact ih o h

theorem runTrace_sim_count (d : Bool) (bs : List SimStep) :
    (runTrace d bs).countP (fun o => o.simRan) ≤ if d then 0 else 1 := by
  induction bs generalizing d with
  | nil => simp [runTrace]
  | cons b bs ih =>
    rcases hc : b.createRes with e | u
    · have h1 : stepCSP d b = (d, ⟨false, false, Except.error e⟩) := by
        simp [stepCSP, hc]
      simpa [runTrace, h1, List.countP_cons] using ih d
    · have h1 : (stepCSP d b).1 = true := by simp [stepCSP, hc]
      have h2 : (stepCSP d b).2.simRan = !d := by simp [stepCSP, hc]
      have h3 : (runTrace true bs).countP (fun o => o.simRan) = 0 :=
        Nat.le_zero.mp (by simpa using ih true)
      cases d <;> simp [runTrace, h1, h2, List.countP_cons, h3]

theorem sim_before_first_post (bs : List SimStep) :
    ∀ (d : Bool) (n : Nat) (o : StepOut),
      (runTrace d bs).get? n = some o → o.simRan = true →
      (((runTrace d bs).take n).all fun x => !x.postCalled) = true := by
  induction bs with
  | nil =>
    intro d n o ho
    simp [runTrace] at ho
  | cons b bs ih =>
    intro d n o ho hsim
    rcases hc : b.createRes with e | u
    · have hrt : runTrace d (b :: bs) =
          (⟨false, false, Except.error e⟩ : StepOut) :: runTrace d bs := by
        simp [runTrace, stepCSP, hc]
      cases n with
      | zero => simp
      | succ n =>
        rw [hrt] at ho ⊢
        simp only [List.get?_cons_succ] at ho
        simp only [List.take_succ_cons, List.all_cons, Bool.not_false, Bool.true_and]
        exact ih d n o ho hsim
    · cases n with
      | zero => simp
      | succ n =>
        exfalso
        have hrt : runTrace d (b :: bs) =
            (stepCSP d b).2 :: runTrace (stepCSP d b).1 bs := rfl
        rw [hrt] at ho
        simp only [List.get?_cons_succ] at ho
        have h1 : (stepCSP d b).1 = true := by simp [stepCSP, hc]
        rw [h1] at ho
        have hmem : o ∈ runTrace true bs := List.get?_mem ho
        rw [runTrace_true_no_sim bs o hmem] at hsim
        exact Bool.noConfusion hsim

/-- C7: across every sequence of orders processed by one builder instance,
the simulation step runs at most once; whenever it runs, no earlier call in
the sequence has invoked `postOrder`; and whenever order creation succeeds
the `postOrder` call happens, whatever the simulation outcome was. -/
theorem simulate_once_never_gates (steps : List SimStep) :
    ((runTrace false steps).countP (fun o => o.simRan) ≤ 1) ∧
    (∀ (n : Nat) (o : StepOut), (runTrace false steps).get? n = some o →
      o.simRan = true →
      (((runTrace false steps).take n).all fun x => !x.postCalled) = true) ∧
    (∀ (d : Bool) (b : SimStep) (u : Unit), b.createRes = .ok u →
      (stepCSP d b).2.postCalled = true) := by
  refine ⟨by simpa using runTrace_sim_count false steps,
    fun n o => sim_before_first_post steps false n o, ?_⟩
  intro d b u hc
  simp [stepCSP, hc]

theorem simulate_once_never_gates_witness :
    ((runTrace false demoSteps).countP (fun o => o.simRan) ≤ 1) ∧
    ((((runTrace false demoSteps).take 0).all fun x => !x.postCalled) = true) ∧
    ((stepCSP false demoStep1).2.postCalled = true) := by
  refine ⟨(simulate_once_never_gates demoSteps).1, ?_, ?_⟩
  · exact (simulate_once_never_gates demoSteps).2.1 0 ((stepCSP false demoStep1).2)
      rfl (by decide)
  · exact (simulate_once_never_gates demoSteps).2.2 false demoStep1 () rfl

/-! ## RPC fallback lemmas (C9) -/

theorem jsSetDedupAux_nodup_and_fresh :
    ∀ (l seen : List String),
      (jsSetDedupAux seen l).Nodup ∧ ∀ x ∈ jsSetDedupAux seen l, x ∉ seen := by
  intro l
  induction l with
  | nil =>
    intro seen
    simp [jsSetDedupAux]
  | cons x xs ih =>
    intro seen
    by_cases hx : x ∈ seen
    · simpa [jsSetDedupAux, hx] using ih seen
    · have ihx := ih (x :: seen)
      refine ⟨?_, ?_⟩
      · simp only [jsSetDedupAux, if_neg hx]
        refine List.nodup_cons.mpr ⟨?_, ihx.1⟩
        intro hmem
        exact (ihx.2 x hmem) (List.mem_cons_self x seen)
      · intro y hy
        simp only [jsSetDedupAux, if_neg hx] at hy
        rcases List.mem_cons.mp hy with h | h
        · subst h
          exact hx
        · intro hys
          exact (ihx.2 y h) (List.mem_cons_of_mem x hys)

theorem jsSetDedup_nodup (l : List String) : (jsSetDedup l).Nodup :=
  (jsSetDedupAux_nodup_and_fresh l []).1

theorem jsSetDedup_cons_head (u : String) (rest : List String) :
    (jsSetDedup (u :: rest)).head? = some u := by
  simp [jsSetDedup, jsSetDedupAux]

theorem tryLoop_spec (f : String → Except String Unit) (ch : Nat) :
    ∀ (cands errs : List String),
      tryLoop f ch errs cands =
        match firstOk f cands with
        | some c => .ok c
        | none =>
          .error (attemptsMsg ch
            (errs.reverse ++ cands.map fun c => c ++ " -> " ++ errOf f c)) := by
  intro cands
  induction cands with
  | nil =>
    intro errs
    simp [tryLoop, firstOk]
  | cons c rest ih =>
    intro errs
    cases hfc : f c with
    | ok u => simp [tryLoop, firstOk, hfc]
    | error e =>
      simp only [tryLoop, firstOk, hfc]
      rw [ih]
      cases hrest : firstOk f rest with
      | some c2 => simp
      | none =>
        have he : errOf f c = e := by simp [errOf, hfc]
        simp [he, List.append_assoc]

/-- C9: `getRpcCandidates` puts the operator RPC_URL first and returns a
deduplicated list; `getWorkingProvider`'s loop returns the first candidate
the probe accepts (moving on past any failure, timeouts included), and when
every candidate fails it throws a message listing every attempt in order;
the per-candidate probe timeout is 7000 ms. -/
theorem rpc_ordered_fallback (url : String) (tok : Option String)
    (f : String → Except String Unit) :
    (∃ l, getRpcCandidates 137 (some url) tok = .ok l ∧
       l.head? = some url ∧ l.Nodup) ∧
    (∀ cands c, firstOk f cands = some c →
       tryLoop f 137 [] cands = .ok c) ∧
    (∀ cands, firstOk f cands = none →
       tryLoop f 137 [] cands =
         .error (attemptsMsg 137 (cands.map fun c => c ++ " -> " ++ errOf f c))) ∧
    rpcProbeTimeoutMs = 7000 := by
  refine ⟨?_, ?_, ?_, rfl⟩
  · have hc : getRpcCandidates 137 (some url) tok =
        .ok (jsSetDedup (url :: ((match tok with
          | some t => ["https://polygon-mainnet.g.alchemy.com/v2/" ++ t]
          | none => []) ++ polygonDefaultRpcs))) := by
      cases tok <;> simp [getRpcCandidates]
    exact ⟨_, hc, jsSetDedup_cons_head _ _, jsSetDedup_nodup _⟩
  · intro cands c hfo
    rw [tryLoop_spec f 137 cands [], hfo]
  · intro cands hfo
    rw [tryLoop_spec f 137 cands [], hfo]
    simp

theorem rpc_ordered_fallback_witness :
    (∃ l, getRpcCandidates 137 (some "https://operator.example") none = .ok l ∧
       l.head? = some "https://operator.example" ∧ l.Nodup) ∧
    (firstOk probeDemo
        ["https://a.example", "https://rpc.ankr.com/polygon"] =
      some "https://rpc.ankr.com/polygon") ∧
    (tryLoop probeDemo 137 []
        ["https://a.example", "https://rpc.ankr.com/polygon"] =
      .ok "https://rpc.ankr.com/polygon") ∧
    (firstOk probeDemo ["https://a.example"] = none) ∧
    (tryLoop probeDemo 137 [] ["https://a.example"] =
      .error (attemptsMsg 137
        (["https://a.example"].map fun c => c ++ " -> " ++ errOf probeDemo c))) := by
  have h := rpc_ordered_fallback "https://operator.example" none probeDemo
  exact ⟨h.1, by decide,
    h.2.1 ["https://a.example", "https://rpc.ankr.com/polygon"]
      "https://rpc.ankr.com/polygon" (by decide),
    by decide,
    h.2.2.1 ["https://a.example"] (by decide)⟩

end PolyBot
